import Mathlib

/-!
Verification of the OpenConvAI reconciliation client
(`src/services/open-convai.ts` of the hedera plugin repository).

The development shallowly embeds the client state (the three per-topic
tracking maps and the connection registry), the inbound-request scan, the
connection-topic scan, the connection-negotiation path, the message handler
and its response callback, and the error handlers.  JS `Map`s become
functions `TopicId → Option _`, JS `Set`s become `Finset ℕ`, JS strings
become `List Char` where substring reasoning is needed, fallible external
calls become `Except JsError _`, and `Date.now()` is threaded as an
explicit parameter.  The external SDK collaborators (HCS10Client and
ConnectionsManager) are modelled from the interfaces the spec gives them in
sections 4.1 and 6: the ledger gateway is a record of oracle functions, and
the connections manager is an in-memory registry keyed by connection topic
id plus a set of processed-request flags.
-/

namespace OpenConvai

/-- Topic identifiers, as in the source (strings such as "0.0.777"). -/
abbrev TopicId := String

/-- A message sent to a topic: the topic and the payload text. -/
abbrev Sent := TopicId × List Char

/-- JS string truthiness for an optional string: `undefined`, `null` and the
empty string are falsy. -/
def truthyS : Option (List Char) → Bool
  | none => false
  | some s => !s.isEmpty

/-- JS `hay.includes(needle)` (substring containment). -/
def jsIncludes (hay needle : List Char) : Bool := decide (needle <:+: hay)

/-- JS `hay.endsWith(tail)`. -/
def jsEndsWith (hay tail : List Char) : Bool := decide (tail <:+ hay)

/-- JS `hay.startsWith(head)`. -/
def jsStartsWith (hay head : List Char) : Bool := decide (head <+: hay)

/-- Splits a list at the first occurrence of `c`: returns the part before
and the part after, or `none` when `c` does not occur. -/
def splitOnce (c : Char) : List Char → Option (List Char × List Char)
  | [] => none
  | x :: xs =>
    if x = c then some ([], xs)
    else (splitOnce c xs).map (fun p => (x :: p.1, p.2))

/-- The module-level `extractAccountId` of open-convai.ts: splits the
operator id on `@` and returns the second part when the split yields
exactly two parts (exactly one `@`), and `null` otherwise. -/
def extractAccountId (operatorId : List Char) : Option (List Char) :=
  if operatorId.isEmpty then none
  else
    match splitOnce '@' operatorId with
    | none => none
    | some (_, rest) => if rest.contains '@' then none else some rest

/-- The external SDK helper `extractAccountFromOperatorId` (spec section 6).
It mirrors the module-level `extractAccountId` of open-convai.ts. -/
def extractAccountFromOperatorId : List Char → Option (List Char) :=
  extractAccountId

/-- The `TOPIC_ID_REGEX` check of `_isValidTopicId`: the string matches
`[0-9]+\.[0-9]+\.[0-9]+` exactly, i.e. splitting on `.` yields three
non-empty all-digit groups. -/
def topicIdRegexTest (s : List Char) : Bool :=
  match List.splitOn '.' s with
  | [a, b, c] =>
    !a.isEmpty && !b.isEmpty && !c.isEmpty &&
      a.all Char.isDigit && b.all Char.isDigit && c.all Char.isDigit
  | _ => false

/-- `_isValidTopicId` of open-convai.ts (the `undefined` case of the source
is the empty string here, which the regex rejects as the source does). -/
def isValidTopicId (topicId : TopicId) : Bool :=
  topicIdRegexTest topicId.toList

/-- `ONE_DAY_MS` of open-convai.ts. -/
def ONE_DAY_MS : Int := 24 * 60 * 60 * 1000

/-- An HCS message as the client reads it: fields that the source accesses
through optional chaining are `Option`s; `sequence_number` keeps the JS
number semantics in which `0` (and anything `≤ 0`) is rejected by the
guards of the source. `created` is the ledger timestamp in milliseconds
(`created.getTime()`). -/
structure HCSMessage where
  sequence_number : Nat := 0
  operator_id : Option (List Char) := none
  op : Option String := none
  data : Option (List Char) := none
  created : Option Int := none
deriving DecidableEq

/-- A thrown JS error, as far as `_handleTopicFetchError` inspects it:
whether it is an `Error` instance, and its message text. -/
structure JsError where
  isError : Bool
  message : List Char
deriving DecidableEq

/-- Connection lifecycle status (spec section 3). -/
inductive ConnStatus where
  | pending
  | established
  | closed
deriving DecidableEq

/-- A registry entry of the ConnectionsManager (the fields the client reads
or writes; spec section 3 and 4.1). -/
structure Connection where
  connectionTopicId : TopicId
  targetAccountId : List Char
  status : ConnStatus
  inboundRequestId : Option Nat := none
  originTopicId : Option TopicId := none
  closedReason : Option String := none
  closeMethod : Option String := none
deriving DecidableEq

/-- `getConnectionByTopicId` of the ConnectionsManager: lookup by
connection-topic id (spec section 4.1). -/
def getConnectionByTopicId (conns : List Connection) (topicId : TopicId) :
    Option Connection :=
  conns.find? (fun c => c.connectionTopicId = topicId)

/-- `updateOrAddConnection` of the ConnectionsManager: inserts or
overwrites, keyed by connection-topic id (spec section 4.1). -/
def updateOrAddConnection (conns : List Connection) (c : Connection) :
    List Connection :=
  if conns.any (fun c0 => c0.connectionTopicId = c.connectionTopicId) then
    conns.map (fun c0 => if c0.connectionTopicId = c.connectionTopicId then c else c0)
  else
    conns ++ [c]

/-- `getActiveConnections` of the ConnectionsManager: all connections with
status `established` (spec section 4.1). -/
def getActiveConnections (conns : List Connection) : List Connection :=
  conns.filter (fun c => c.status = ConnStatus.established)

/-- The mutable state of the `OpenConvaiClient` instance: the three
per-topic tracking maps, plus the modelled ConnectionsManager store (its
connection list and its processed-request flags). -/
structure ClientState where
  processedMessages : TopicId → Option (Finset Nat)
  messagesInProcess : TopicId → Option (Finset Nat)
  lastProcessedTimestamps : TopicId → Option Int
  connections : List Connection
  requestProcessed : Finset (TopicId × Nat)

/-- Pointwise map update (JS `Map.set`). -/
def mapUpd {α : Type} (m : TopicId → Option α) (k : TopicId) (v : α) :
    TopicId → Option α :=
  fun q => if q = k then some v else m q

/-- Pointwise map removal (JS `Map.delete`). -/
def mapDrop {α : Type} (m : TopicId → Option α) (k : TopicId) :
    TopicId → Option α :=
  fun q => if q = k then none else m q

/-- `_initializeTopicTracking` of open-convai.ts: creates empty
processed/in-process sets when absent and, when `setInitialTimestamp` is
set and no timestamp is stored, stores `Date.now() - ONE_DAY_MS`. -/
def initializeTopicTracking (s : ClientState) (topicId : TopicId)
    (setInitialTimestamp : Bool) (now : Int) : ClientState :=
  { s with
    processedMessages :=
      if (s.processedMessages topicId).isNone then
        mapUpd s.processedMessages topicId ∅
      else s.processedMessages
    messagesInProcess :=
      if (s.messagesInProcess topicId).isNone then
        mapUpd s.messagesInProcess topicId ∅
      else s.messagesInProcess
    lastProcessedTimestamps :=
      if setInitialTimestamp && (s.lastProcessedTimestamps topicId).isNone then
        mapUpd s.lastProcessedTimestamps topicId (now - ONE_DAY_MS)
      else s.lastProcessedTimestamps }

/-- `_cleanupTopicTracking` of open-convai.ts: removes the topic from all
three tracking maps. -/
def cleanupTopicTracking (s : ClientState) (topicId : TopicId) : ClientState :=
  { s with
    processedMessages := mapDrop s.processedMessages topicId
    messagesInProcess := mapDrop s.messagesInProcess topicId
    lastProcessedTimestamps := mapDrop s.lastProcessedTimestamps topicId }

/-- The error test of `_handleTopicFetchError` and of the catch block of
`sendResponse`: the thrown value is an `Error` whose message contains
`INVALID_TOPIC_ID` or `TopicId Does Not Exist`. -/
def topicGoneError (e : JsError) : Bool :=
  e.isError &&
    (jsIncludes e.message "INVALID_TOPIC_ID".toList ||
      jsIncludes e.message "TopicId Does Not Exist".toList)

/-- `_handleTopicFetchError` of open-convai.ts: on a topic-gone error,
cleans up tracking and closes a not-already-closed registry connection with
reason "Topic no longer exists"; any other error only gets logged. -/
def handleTopicFetchError (s : ClientState) (e : JsError) (topicId : TopicId) :
    ClientState :=
  if topicGoneError e then
    let s1 := cleanupTopicTracking s topicId
    match getConnectionByTopicId s1.connections topicId with
    | some conn =>
      if conn.status ≠ ConnStatus.closed then
        let closedConn := { conn with
          status := ConnStatus.closed,
          closedReason := some "Topic no longer exists",
          closeMethod := some "admin_key" }
        { s1 with connections := updateOrAddConnection s1.connections closedConn }
      else s1
    | none => s1
  else s

/-- The watermark update of open-convai.ts: every update site
(`watchConnectionTopics` after a handled message, `finalizeConnection` and
the response callback after a send) is a plain `Map.set` on
`lastProcessedTimestamps`. -/
def advanceWatermark (s : ClientState) (topicId : TopicId) (ts : Int) :
    ClientState :=
  { s with lastProcessedTimestamps := mapUpd s.lastProcessedTimestamps topicId ts }

/-- The per-message predicate of the `newMessages` filter of
`watchConnectionTopics` (lines 475-481): created strictly after the
captured watermark, operator id not containing the local account id, and
sequence number in neither the processed nor the in-process set. -/
def newMessageKeep (accountId : List Char) (lastTimestamp : Int)
    (processedSet inProcessSet : Finset Nat) (m : HCSMessage) : Bool :=
  (match m.created with
   | some t => decide (lastTimestamp < t)
   | none => false) &&
  !(match m.operator_id with
    | some o => jsIncludes o accountId
    | none => false) &&
  !(decide (m.sequence_number ∈ processedSet)) &&
  !(decide (m.sequence_number ∈ inProcessSet))

/-- The `newMessages` filter of `watchConnectionTopics` (the operation the
spec calls `filterNew`). -/
def filterNew (accountId : List Char) (lastTimestamp : Int)
    (processedSet inProcessSet : Finset Nat) (msgs : List HCSMessage) :
    List HCSMessage :=
  msgs.filter (newMessageKeep accountId lastTimestamp processedSet inProcessSet)

/-- The HCS10Client ledger gateway, modelled from the interfaces of spec
sections 1 and 6 as a record of deterministic oracle functions.  A thrown
JS exception is an `Except.error`; `sendMessage` returns the receipt
`topicSequenceNumber` (absent when the receipt carries none), and
`sendTransaction` takes the reply memo and the optional schedule payer. -/
structure Gateway where
  getMessages : TopicId → Except JsError (List HCSMessage)
  getMessageStream : TopicId → Except JsError (List HCSMessage)
  sendMessage : TopicId → List Char → Except JsError (Option Nat)
  sendTransaction : TopicId → List Char → Option (List Char) → Except JsError Unit
  handleConnectionRequest : TopicId → List Char → Nat → Except JsError TopicId
  getMessageContent : List Char → Except JsError (List Char)

/-- Static configuration of the client instance: the local account id, the
inbound topic retrieved from the profile, and the character name used in
the greeting. -/
structure ClientConfig where
  accountId : List Char
  inboundTopicId : TopicId
  agentName : List Char

/-- The greeting text of `finalizeConnection`:
`Hello from NAME! Connection established.`. -/
def welcomeMessage (cfg : ClientConfig) : List Char :=
  "Hello from ".toList ++ cfg.agentName ++ "! Connection established.".toList

/-- Adds a sequence number to the processed set of a topic, guarded on the
set being tracked, as the source does at every
`processedMessages.get(topic)` / `add` site. -/
def addProcessed (s : ClientState) (topicId : TopicId) (n : Nat) : ClientState :=
  match s.processedMessages topicId with
  | some ps => { s with processedMessages := mapUpd s.processedMessages topicId (insert n ps) }
  | none => s

/-- `inProcessSet.add` of the dispatch loop. The set is present whenever
the loop runs (`_initializeTopicTracking` precedes it); a missing entry is
a no-op here. -/
def addInProcess (s : ClientState) (topicId : TopicId) (n : Nat) : ClientState :=
  match s.messagesInProcess topicId with
  | some ps => { s with messagesInProcess := mapUpd s.messagesInProcess topicId (insert n ps) }
  | none => s

/-- `inProcessSet.delete` of the `finally` block of the dispatch loop. -/
def delInProcess (s : ClientState) (topicId : TopicId) (n : Nat) : ClientState :=
  match s.messagesInProcess topicId with
  | some ps => { s with messagesInProcess := mapUpd s.messagesInProcess topicId (ps.erase n) }
  | none => s

/-- `sendResponse` of open-convai.ts: sends via the gateway; on a thrown
topic-gone error it cleans up tracking and closes the registry connection
with reason "Topic invalid during send" before rethrowing; other errors
are rethrown unchanged.  Returns the state, the messages that actually
reached the ledger, and the receipt or the rethrown error. -/
def sendResponse (gw : Gateway) (s : ClientState) (topicId : TopicId)
    (response : List Char) : ClientState × List Sent × Except JsError (Option Nat) :=
  match gw.sendMessage topicId response with
  | .ok receipt => (s, [(topicId, response)], .ok receipt)
  | .error e =>
    if topicGoneError e then
      let s1 := cleanupTopicTracking s topicId
      match getConnectionByTopicId s1.connections topicId with
      | some conn =>
        if conn.status ≠ ConnStatus.closed then
          let closedConn := { conn with
            status := ConnStatus.closed,
            closedReason := some "Topic invalid during send",
            closeMethod := some "admin_key" }
          ({ s1 with connections := updateOrAddConnection s1.connections closedConn },
            [], .error e)
        else (s1, [], .error e)
      | none =>
        -- source: spread of an undefined lookup, leaving only the closed
        -- fields; the registry receives an entry with no topic id
        let closedConn : Connection := {
          connectionTopicId := "",
          targetAccountId := [],
          status := ConnStatus.closed,
          closedReason := some "Topic invalid during send",
          closeMethod := some "admin_key" }
        ({ s1 with connections := updateOrAddConnection s1.connections closedConn },
          [], .error e)
    else (s, [], .error e)

/-- `finalizeConnection` of open-convai.ts: upserts the established
connection, initialises its watermark with the timestamp bound, sends the
greeting, and on a receipt with a sequence number marks that number
processed and stamps the watermark with `Date.now()`.  Every throw inside
is swallowed by the surrounding catch. -/
def finalizeConnection (cfg : ClientConfig) (gw : Gateway) (s : ClientState)
    (connectionTopicId : TopicId) (msg : HCSMessage)
    (requesterAccount : List Char) (now : Int) : ClientState × List Sent :=
  let newConn : Connection := {
    connectionTopicId := connectionTopicId,
    targetAccountId := requesterAccount,
    status := ConnStatus.established,
    inboundRequestId := some msg.sequence_number,
    originTopicId := some cfg.inboundTopicId }
  let s1 := { s with connections := updateOrAddConnection s.connections newConn }
  let s2 := initializeTopicTracking s1 connectionTopicId true now
  match sendResponse gw s2 connectionTopicId (welcomeMessage cfg) with
  | (s3, sent, .error _) => (s3, sent)
  | (s3, sent, .ok receipt) =>
    match receipt with
    | some n =>
      let s4 := addProcessed s3 connectionTopicId n
      (advanceWatermark s4 connectionTopicId now, sent)
    | none => (s3, sent)

/-- `handleConnectionRequest` (the client method) of open-convai.ts:
invokes the gateway negotiation primitive; on success marks the request
processed in the connections manager and finalizes; on a throw adds the
sequence number to the inbound processed set and returns `null`. -/
def handleConnectionRequest (cfg : ClientConfig) (gw : Gateway) (s : ClientState)
    (msg : HCSMessage) (now : Int) : ClientState × List Sent × Option TopicId :=
  let requesterOperatorId := msg.operator_id.getD []
  let requesterAccountId := (extractAccountFromOperatorId requesterOperatorId).getD []
  let sequenceNumber := msg.sequence_number
  match gw.handleConnectionRequest cfg.inboundTopicId requesterAccountId sequenceNumber with
  | .ok connectionTopicId =>
    let flags := insert (cfg.inboundTopicId, sequenceNumber) s.requestProcessed
    let s1 := { s with requestProcessed := flags }
    let (s2, sent) :=
      finalizeConnection cfg gw s1 connectionTopicId msg requesterAccountId now
    (s2, sent, some connectionTopicId)
  | .error _ =>
    (addProcessed s cfg.inboundTopicId sequenceNumber, [], none)

/-- Result of the inbound scan: the state, the messages sent, and the
sequence numbers for which the gateway negotiation primitive was invoked
(the requests dispatched to negotiation). -/
structure InboundScanResult where
  state : ClientState
  sent : List Sent
  attempts : List Nat

/-- The loop body of `watchConnectionRequests` for one inbound message
(lines 355-428): skip non-positive sequence numbers; skip sequence numbers
in the inbound processed set, otherwise add them at once; skip own
messages; for `connection_request` messages, skip when flagged processed in
the connections manager, skip malformed operator ids, reuse an existing
connection with matching `inboundRequestId`, and otherwise negotiate and
start tracking the new topic; other ops are logged only. -/
def processInboundMessage (cfg : ClientConfig) (gw : Gateway) (now : Int)
    (acc : InboundScanResult) (message : HCSMessage) : InboundScanResult :=
  let s := acc.state
  if message.sequence_number = 0 then acc
  else
    match s.processedMessages cfg.inboundTopicId with
    | none => acc  -- unreachable: the scan initialises the entry first
    | some inboundProcessed =>
      if message.sequence_number ∈ inboundProcessed then acc
      else
        let pm := mapUpd s.processedMessages cfg.inboundTopicId
          (insert message.sequence_number inboundProcessed)
        let s := { s with processedMessages := pm }
        if (match message.operator_id with
            | some o => jsEndsWith o ('@' :: cfg.accountId)
            | none => false) then
          { acc with state := s }
        else if message.op = some "connection_request" then
          if (cfg.inboundTopicId, message.sequence_number) ∈ s.requestProcessed then
            { acc with state := s }
          else
            match message.operator_id with
            | none => { acc with state := s }
            | some opid =>
              if !truthyS (extractAccountFromOperatorId opid) then
                { acc with state := s }
              else
                match s.connections.find?
                    (fun c => c.inboundRequestId = some message.sequence_number) with
                | some _existing =>
                  let flags :=
                    insert (cfg.inboundTopicId, message.sequence_number) s.requestProcessed
                  { acc with state := { s with requestProcessed := flags } }
                | none =>
                  let (s2, sent2, newTopic?) :=
                    handleConnectionRequest cfg gw s message now
                  let s3 :=
                    match newTopic? with
                    | some t => initializeTopicTracking s2 t true now
                    | none => s2
                  { state := s3,
                    sent := acc.sent ++ sent2,
                    attempts := acc.attempts ++ [message.sequence_number] }
        else
          { acc with state := s }

/-- `watchConnectionRequests` of open-convai.ts: guard on the inbound topic
id, initialise tracking, fetch via `getMessages`, and fold the loop body
over the batch; a fetch throw goes to `_handleTopicFetchError`. -/
def watchConnectionRequests (cfg : ClientConfig) (gw : Gateway) (s : ClientState)
    (now : Int) : InboundScanResult :=
  if !isValidTopicId cfg.inboundTopicId then ⟨s, [], []⟩
  else
    let s0 := initializeTopicTracking s cfg.inboundTopicId false now
    match gw.getMessages cfg.inboundTopicId with
    | .error e => ⟨handleTopicFetchError s0 e cfg.inboundTopicId, [], []⟩
    | .ok messages => messages.foldl (processInboundMessage cfg gw now) ⟨s0, [], []⟩

/-- Outcome of one handler invocation: the state after it, the messages it
sent, and whether it returned normally (`ok = false` models a rejected
promise observed by the catch clause of the dispatch loop). -/
structure HandlerOutcome where
  state : ClientState
  sent : List Sent
  ok : Bool

/-- A message handler as the dispatch loop sees it. -/
abbrev Handler := ClientState → HCSMessage → TopicId → HandlerOutcome

/-- Result of the active-connection scan: state, sent messages, and the
messages dispatched to the handler, tagged with their topic. -/
structure TopicScanResult where
  state : ClientState
  sent : List Sent
  dispatched : List (TopicId × HCSMessage)

/-- The dispatch loop body of `watchConnectionTopics` (lines 483-507):
skip absent sequence numbers; mark in-process, invoke the handler, on
normal return mark processed and stamp the watermark with the message
creation time, and in the `finally` clause always unmark in-process. -/
def dispatchMessage (handler : Handler) (topicId : TopicId)
    (acc : TopicScanResult) (message : HCSMessage) : TopicScanResult :=
  if message.sequence_number = 0 then acc
  else
    let s1 := addInProcess acc.state topicId message.sequence_number
    let hres := handler s1 message topicId
    let s2 :=
      if hres.ok then
        let s' := addProcessed hres.state topicId message.sequence_number
        match message.created with
        | some t => advanceWatermark s' topicId t
        | none => s'
      else hres.state
    let s3 := delInProcess s2 topicId message.sequence_number
    { state := s3,
      sent := acc.sent ++ hres.sent,
      dispatched := acc.dispatched ++ [(topicId, message)] }

/-- The per-connection body of `watchConnectionTopics` (lines 444-510):
guard the topic id, initialise tracking, capture watermark and sets, fetch
the stream, let the connections manager process the raw batch
(`processConnectionMessages`, an external call modelled by the oracle
`pcm`), clean up and stop when the connection is gone or closed, and
otherwise dispatch every message that survives the `newMessages` filter; a
fetch throw goes to `_handleTopicFetchError`. -/
def scanConnectionTopic (cfg : ClientConfig) (gw : Gateway)
    (pcm : TopicId → List HCSMessage → List Connection → List Connection)
    (handler : Handler) (now : Int) (acc : TopicScanResult) (conn : Connection) :
    TopicScanResult :=
  let topicId := conn.connectionTopicId
  if !isValidTopicId topicId then acc
  else
    let s0 := initializeTopicTracking acc.state topicId true now
    let lastTimestamp := (s0.lastProcessedTimestamps topicId).getD 0
    let processedSet := (s0.processedMessages topicId).getD ∅
    let inProcessSet := (s0.messagesInProcess topicId).getD ∅
    match gw.getMessageStream topicId with
    | .error e => { acc with state := handleTopicFetchError s0 e topicId }
    | .ok messages =>
      let s1 := { s0 with connections := pcm topicId messages s0.connections }
      match getConnectionByTopicId s1.connections topicId with
      | none => { acc with state := cleanupTopicTracking s1 topicId }
      | some current =>
        if current.status = ConnStatus.closed then
          { acc with state := cleanupTopicTracking s1 topicId }
        else
          let newMessages :=
            filterNew cfg.accountId lastTimestamp processedSet inProcessSet messages
          newMessages.foldl (dispatchMessage handler topicId) { acc with state := s1 }

/-- `watchConnectionTopics` of open-convai.ts: iterate the per-connection
scan over the active connections captured at entry. -/
def watchConnectionTopics (cfg : ClientConfig) (gw : Gateway)
    (pcm : TopicId → List HCSMessage → List Connection → List Connection)
    (handler : Handler) (now : Int) (s : ClientState) : TopicScanResult :=
  (getActiveConnections s.connections).foldl
    (scanConnectionTopic cfg gw pcm handler now) ⟨s, [], []⟩

/-- The structured part of a generated response
(`content?.content as AgentResponse`). -/
structure AgentResponse where
  output : Option (List Char) := none
  notes : Option (List (List Char)) := none
  transactionBytes : Option (List Char) := none
deriving DecidableEq

/-- A host-runtime `Content` value, as far as the response callback reads
it: the top-level text and the embedded `AgentResponse`. -/
structure Content where
  text : Option (List Char) := none
  content : Option AgentResponse := none
deriving DecidableEq

/-- The back-reference tag `[Reply to #N]` prefixed to every reply. -/
def replyTag (seq : Nat) : List Char :=
  "[Reply to #".toList ++ (toString seq).toList ++ "]".toList

/-- The advisory-notes disclaimer text of the response callback. -/
def inferenceMessage : List Char :=
  "I\x27ve made some inferences based on your prompt. If this isn\x27t what you expected, please try a more refined prompt.".toList

/-- `notes.map((note) => `- note`).join("\n")` of the response callback. -/
def formatNotes (notes : List (List Char)) : List Char :=
  List.intercalate ['\n'] (notes.map (fun note => "- ".toList ++ note))

/-- The response-sending callback defined inside `handleMessage` (lines
742-844).  Four sequential branches: structured output (when no transaction
bytes), advisory notes (when present and no transaction bytes), a scheduled
transaction (when transaction bytes are present), and the top-level text
(when no transaction bytes).  `sentReceipt` keeps the receipt of the last
message send; when it carries a sequence number, that number is added to
the processed set and the watermark is stamped with `Date.now()`.  A throw
anywhere is caught, so the messages already submitted stay submitted and
the receipt bookkeeping is skipped.  Returns the state, the messages sent,
and the scheduled transactions submitted (with their reply memo). -/
def responseCallback (gw : Gateway) (s : ClientState) (topicId : TopicId)
    (origSeq : Nat) (msgOperator : Option (List Char)) (now : Int)
    (content : Content) : ClientState × List Sent × List (TopicId × List Char) :=
  let rc := content.content
  let out := rc.bind AgentResponse.output
  let nts := rc.bind AgentResponse.notes
  let tb := rc.bind AgentResponse.transactionBytes
  let tag := replyTag origSeq
  let step1 : Except Unit (List Sent × Option (Option Nat)) :=
    if truthyS out && !truthyS tb then
      let txt := tag ++ ' ' :: out.getD []
      match gw.sendMessage topicId txt with
      | .ok r => .ok ([(topicId, txt)], some r)
      | .error _ => .error ()
    else .ok ([], none)
  match step1 with
  | .error _ => (s, [], [])
  | .ok (sends1, rcpt1) =>
    let step2 : Except Unit (List Sent × Option (Option Nat)) :=
      if nts.isSome && !truthyS tb then
        let txt := tag ++ '\n' :: (inferenceMessage ++ '\n' :: formatNotes (nts.getD []))
        match gw.sendMessage topicId txt with
        | .ok r => .ok (sends1 ++ [(topicId, txt)], some r)
        | .error _ => .error ()
      else .ok (sends1, rcpt1)
    match step2 with
    | .error _ => (s, sends1, [])
    | .ok (sends2, rcpt2) =>
      let step3 : Except Unit (List (TopicId × List Char)) :=
        if truthyS tb then
          let reply :=
            if (nts.getD []).length > 0 then
              tag ++ '\n' :: (inferenceMessage ++ '\n' :: formatNotes (nts.getD []))
            else tag
          let payer := extractAccountId (msgOperator.getD [])
          match gw.sendTransaction topicId reply payer with
          | .ok _ => .ok [(topicId, reply)]
          | .error _ => .error ()
        else .ok []
      match step3 with
      | .error _ => (s, sends2, [])
      | .ok txs =>
        let step4 : Except Unit (List Sent × Option (Option Nat)) :=
          if !truthyS tb && truthyS content.text then
            let txt := tag ++ '\n' :: content.text.getD []
            match gw.sendMessage topicId txt with
            | .ok r => .ok (sends2 ++ [(topicId, txt)], some r)
            | .error _ => .error ()
          else .ok (sends2, rcpt2)
        match step4 with
        | .error _ => (s, sends2, txs)
        | .ok (sends4, rcpt4) =>
          match rcpt4 with
          | some (some n) =>
            let s1 := addProcessed s topicId n
            (advanceWatermark s1 topicId now, sends4, txs)
          | _ => (s, sends4, txs)

/-- The fallback reply of `_generateResponse`. -/
def fallbackResponseText : List Char :=
  "I\x27m having trouble generating a response right now. Please try again later.".toList

/-- `_generateResponse` of open-convai.ts, over the model-invocation
outcome: the model text when truthy, the fallback apology on an empty or
missing text or a throw. -/
def generateResponse (useModelResult : Except JsError (Option (List Char))) :
    Content :=
  match useModelResult with
  | .ok (some response) =>
    { text := some (if response.isEmpty then fallbackResponseText else response) }
  | .ok none => { text := some fallbackResponseText }
  | .error _ => { text := some fallbackResponseText }

/-- The host runtime collaborator, modelled as oracles: the model
invocation outcome for a message, and the contents that `processActions`
passes back through the response callback. -/
structure RuntimeOracle where
  useModel : HCSMessage → Except JsError (Option (List Char))
  processActionsContents : HCSMessage → List Content

/-- `handleMessage` of open-convai.ts: skip messages with falsy data and
topics without an established registry connection; resolve an `hcs://`
content reference through the gateway, returning with no reply when
resolution throws; otherwise record the memory, generate a response via
the runtime, run the response callback on it, and run the callback again
for each content produced by `processActions`.  Every throw inside the
main block is swallowed by its catch, so the handler always returns
normally. -/
def handleMessage (gw : Gateway) (ro : RuntimeOracle) (s : ClientState)
    (m : HCSMessage) (connectionTopicId : TopicId) (now : Int) : HandlerOutcome :=
  if !truthyS m.data then ⟨s, [], true⟩
  else
    match getConnectionByTopicId s.connections connectionTopicId with
    | none => ⟨s, [], true⟩
    | some connectionInfo =>
      if connectionInfo.status ≠ ConnStatus.established then ⟨s, [], true⟩
      else
        let data := m.data.getD []
        let resolved : Except JsError (List Char) :=
          if jsStartsWith data "hcs://".toList then gw.getMessageContent data
          else .ok data
        match resolved with
        | .error _ => ⟨s, [], true⟩
        | .ok _messageContent =>
          let responseContent := generateResponse (ro.useModel m)
          let r1 :=
            responseCallback gw s connectionTopicId m.sequence_number
              m.operator_id now responseContent
          let step := fun (acc : ClientState × List Sent) (c : Content) =>
            let r :=
              responseCallback gw acc.1 connectionTopicId m.sequence_number
                m.operator_id now c
            (r.1, acc.2 ++ r.2.1)
          let fin := (ro.processActionsContents m).foldl step (r1.1, r1.2.1)
          ⟨fin.1, fin.2, true⟩

/-- The fixed monitoring period of `startMonitoringLoop`. -/
def MONITORING_INTERVAL_MS : Nat := 5000

/-- The guard of the interval callback installed by `startMonitoringLoop`
(lines 316-321): the callback returns early iff the stop flag is set.  The
callback body contains no check of whether a previous tick is still
running. -/
def intervalCallbackRunsTick (isStopping : Bool) : Bool := !isStopping

/-- Firing time of the k-th interval callback: `setInterval` fires every
5000 ms after installation, regardless of how long the previous callback
took. -/
def tickStartTime (k : Nat) : Nat := MONITORING_INTERVAL_MS * (k + 1)

/-- Whether the k-th scheduled tick is started: exactly the interval
callback guard, evaluated on the stop flag at that firing. -/
def tickStarted (stopping : Nat → Bool) (k : Nat) : Bool :=
  intervalCallbackRunsTick (stopping k)

/-- The k-th tick is in progress at time `t`: it was started, and `t` falls
within its execution span of `dur k` milliseconds (`monitoringTick` awaits
gateway calls, so its span is interleavable with other callbacks). -/
def tickRunningAt (stopping : Nat → Bool) (dur : Nat → Nat) (k t : Nat) : Prop :=
  tickStarted stopping k = true ∧ tickStartTime k ≤ t ∧ t < tickStartTime k + dur k

/-- Two distinct ticks are simultaneously in progress at some instant. -/
def ticksOverlap (stopping : Nat → Bool) (dur : Nat → Nat) (k k' : Nat) : Prop :=
  k ≠ k' ∧ ∃ t, tickRunningAt stopping dur k t ∧ tickRunningAt stopping dur k' t

/-! Concrete instances used to evaluate the model on explicit inputs. -/

/-- A fresh client state: no tracked topics, no connections, no flags. -/
def emptyState : ClientState where
  processedMessages := fun _ => none
  messagesInProcess := fun _ => none
  lastProcessedTimestamps := fun _ => none
  connections := []
  requestProcessed := ∅

/-- A sample configuration: local account `0.0.999`, inbound topic
`0.0.100`. -/
def cfgT : ClientConfig where
  accountId := "0.0.999".toList
  inboundTopicId := "0.0.100"
  agentName := "Hedera Agent".toList

/-- A connection request from `0.0.500`, sequence number 5. -/
def reqMsgT : HCSMessage where
  sequence_number := 5
  operator_id := some "agent@0.0.500".toList
  op := some "connection_request"
  created := some 1000

/-- A transient network error (no topic-gone marker). -/
def netErrT : JsError := ⟨true, "network timeout".toList⟩

/-- A topic-gone error. -/
def goneErrT : JsError := ⟨true, "INVALID_TOPIC_ID: deleted".toList⟩

/-- A gateway on which every call succeeds: negotiation yields topic
`0.0.777`, sends get receipt sequence number 1. -/
def gwOkT : Gateway where
  getMessages := fun _ => .ok [reqMsgT]
  getMessageStream := fun _ => .ok []
  sendMessage := fun _ _ => .ok (some 1)
  sendTransaction := fun _ _ _ => .ok ()
  handleConnectionRequest := fun _ _ _ => .ok "0.0.777"
  getMessageContent := fun _ => .ok []

/-- Like `gwOkT` but negotiation throws a transient network error. -/
def gwFailT : Gateway :=
  { gwOkT with handleConnectionRequest := fun _ _ _ => .error netErrT }

/-- A state whose topic `0.0.888` has stored watermark 100. -/
def wmStateT : ClientState :=
  { emptyState with
    lastProcessedTimestamps := mapUpd emptyState.lastProcessedTimestamps "0.0.888" 100 }

/-- An established connection on topic `0.0.888` with peer `0.0.500`. -/
def connT : Connection where
  connectionTopicId := "0.0.888"
  targetAccountId := "0.0.500".toList
  status := ConnStatus.established
  inboundRequestId := some 5
  originTopicId := some "0.0.100"

/-- A state tracking the established connection `0.0.888`: processed set
`{2}`, stored watermark 0. -/
def connStateT : ClientState :=
  { emptyState with
    connections := [connT]
    processedMessages := mapUpd emptyState.processedMessages "0.0.888" {2}
    lastProcessedTimestamps := mapUpd emptyState.lastProcessedTimestamps "0.0.888" 0 }

/-- Like `gwOkT` but every send throws the topic-gone error. -/
def gwSendGoneT : Gateway :=
  { gwOkT with sendMessage := fun _ _ => .error goneErrT }

/-- A `processConnectionMessages` oracle that changes nothing. -/
def pcmIdT : TopicId → List HCSMessage → List Connection → List Connection :=
  fun _ _ conns => conns

/-- A peer message on the connection topic whose op is
`connection_created`, not `message`. -/
def peerMsgT : HCSMessage where
  sequence_number := 7
  operator_id := some "peer@0.0.500".toList
  op := some "connection_created"
  data := some "hello".toList
  created := some 2000

/-- A peer `message` whose payload is an `hcs://` content reference. -/
def hrlMsgT : HCSMessage where
  sequence_number := 9
  operator_id := some "peer@0.0.500".toList
  op := some "message"
  data := some "hcs://1/0.0.123".toList
  created := some 2000

/-- Like `gwOkT` but the connection-topic stream returns `peerMsgT` and
content resolution throws. -/
def gwScanT : Gateway :=
  { gwOkT with
    getMessageStream := fun _ => .ok [peerMsgT]
    getMessageContent := fun _ => .error netErrT }

/-- A runtime oracle: the model replies `ok reply`, `processActions`
produces nothing. -/
def roT : RuntimeOracle where
  useModel := fun _ => .ok (some "ok reply".toList)
  processActionsContents := fun _ => []

/-- The embedded `handleMessage` over the scan gateway, as a `Handler`. -/
def scanHandlerT : Handler :=
  fun s m t => handleMessage gwScanT roT s m t ONE_DAY_MS

/-- A handler that changes nothing and succeeds. -/
def handlerNoopT : Handler := fun s _ _ => ⟨s, [], true⟩

/-- A response content with a non-empty structured output, a non-empty
top-level text, and no transaction bytes. -/
def contentT : Content where
  text := some "the text".toList
  content := some { output := some "the output".toList }

/-- A stop flag that is never set. -/
def stoppingNeverT : Nat → Bool := fun _ => false

/-- A tick-duration profile on which every tick takes 7000 ms, overrunning
the 5000 ms period. -/
def durOverT : Nat → Nat := fun _ => 7000

/-- The `newMessages` list the scan computes for a topic: the filter
evaluated on the watermark data captured right after
`_initializeTopicTracking` (exactly the captured locals of
`watchConnectionTopics`). -/
def scanSurvivors (cfg : ClientConfig) (s : ClientState) (topicId : TopicId)
    (msgs : List HCSMessage) (now : Int) : List HCSMessage :=
  let s0 := initializeTopicTracking s topicId true now
  filterNew cfg.accountId ((s0.lastProcessedTimestamps topicId).getD 0)
    ((s0.processedMessages topicId).getD ∅)
    ((s0.messagesInProcess topicId).getD ∅) msgs

/-! Basic lemmas about the state helpers. -/

@[simp]
theorem mapUpd_self {α : Type} (m : TopicId → Option α) (k : TopicId) (v : α) :
    mapUpd m k v k = some v := by
  simp [mapUpd]

@[simp]
theorem mapUpd_ne {α : Type} (m : TopicId → Option α) (k v q) (h : q ≠ k) :
    mapUpd (α := α) m k v q = m q := by
  simp [mapUpd, h]

@[simp]
theorem mapDrop_self {α : Type} (m : TopicId → Option α) (k : TopicId) :
    mapDrop m k k = none := by
  simp [mapDrop]

@[simp]
theorem mapDrop_ne {α : Type} (m : TopicId → Option α) (k q) (h : q ≠ k) :
    mapDrop (α := α) m k q = m q := by
  simp [mapDrop, h]

@[simp]
theorem truthyS_none : truthyS none = false := rfl

@[simp]
theorem truthyS_some (s : List Char) : truthyS (some s) = !s.isEmpty := rfl

theorem addProcessed_messagesInProcess (s : ClientState) (t : TopicId) (n : Nat) :
    (addProcessed s t n).messagesInProcess = s.messagesInProcess := by
  cases h : s.processedMessages t <;> simp [addProcessed, h]

theorem addProcessed_lastProcessedTimestamps (s : ClientState) (t : TopicId) (n : Nat) :
    (addProcessed s t n).lastProcessedTimestamps = s.lastProcessedTimestamps := by
  cases h : s.processedMessages t <;> simp [addProcessed, h]

theorem addProcessed_connections (s : ClientState) (t : TopicId) (n : Nat) :
    (addProcessed s t n).connections = s.connections := by
  cases h : s.processedMessages t <;> simp [addProcessed, h]

theorem addProcessed_requestProcessed (s : ClientState) (t : TopicId) (n : Nat) :
    (addProcessed s t n).requestProcessed = s.requestProcessed := by
  cases h : s.processedMessages t <;> simp [addProcessed, h]

theorem addProcessed_lookup (s : ClientState) (t : TopicId) (n : Nat) (P : Finset Nat)
    (h : s.processedMessages t = some P) :
    (addProcessed s t n).processedMessages t = some (insert n P) := by
  simp [addProcessed, h]

theorem addInProcess_processedMessages (s : ClientState) (t : TopicId) (n : Nat) :
    (addInProcess s t n).processedMessages = s.processedMessages := by
  cases h : s.messagesInProcess t <;> simp [addInProcess, h]

theorem addInProcess_connections (s : ClientState) (t : TopicId) (n : Nat) :
    (addInProcess s t n).connections = s.connections := by
  cases h : s.messagesInProcess t <;> simp [addInProcess, h]

theorem delInProcess_processedMessages (s : ClientState) (t : TopicId) (n : Nat) :
    (delInProcess s t n).processedMessages = s.processedMessages := by
  cases h : s.messagesInProcess t <;> simp [delInProcess, h]

theorem advanceWatermark_processedMessages (s : ClientState) (t : TopicId) (ts : Int) :
    (advanceWatermark s t ts).processedMessages = s.processedMessages := rfl

theorem advanceWatermark_messagesInProcess (s : ClientState) (t : TopicId) (ts : Int) :
    (advanceWatermark s t ts).messagesInProcess = s.messagesInProcess := rfl

theorem initializeTopicTracking_processed_self (s : ClientState) (t : TopicId)
    (b : Bool) (now : Int) :
    (initializeTopicTracking s t b now).processedMessages t =
      some ((s.processedMessages t).getD ∅) := by
  cases h : s.processedMessages t <;> simp [initializeTopicTracking, h]

theorem initializeTopicTracking_inProcess_self (s : ClientState) (t : TopicId)
    (b : Bool) (now : Int) :
    (initializeTopicTracking s t b now).messagesInProcess t =
      some ((s.messagesInProcess t).getD ∅) := by
  cases h : s.messagesInProcess t <;> simp [initializeTopicTracking, h]

theorem initializeTopicTracking_last_true (s : ClientState) (t : TopicId) (now : Int) :
    (initializeTopicTracking s t true now).lastProcessedTimestamps t =
      some ((s.lastProcessedTimestamps t).getD (now - ONE_DAY_MS)) := by
  cases h : s.lastProcessedTimestamps t <;> simp [initializeTopicTracking, h]

theorem initializeTopicTracking_connections (s : ClientState) (t : TopicId)
    (b : Bool) (now : Int) :
    (initializeTopicTracking s t b now).connections = s.connections := rfl

theorem initializeTopicTracking_requestProcessed (s : ClientState) (t : TopicId)
    (b : Bool) (now : Int) :
    (initializeTopicTracking s t b now).requestProcessed = s.requestProcessed := rfl

theorem cleanupTopicTracking_connections (s : ClientState) (t : TopicId) :
    (cleanupTopicTracking s t).connections = s.connections := rfl

/-! Lemmas about the modelled connection registry. -/

theorem getConnectionByTopicId_topic (conns : List Connection) (t : TopicId)
    (c : Connection) (h : getConnectionByTopicId conns t = some c) :
    c.connectionTopicId = t := by
  have := List.find?_some h
  exact of_decide_eq_true this

theorem getConnectionByTopicId_upsert (conns : List Connection) (c : Connection) :
    getConnectionByTopicId (updateOrAddConnection conns c) c.connectionTopicId =
      some c := by
  unfold updateOrAddConnection
  split
  · rename_i hany
    induction conns with
    | nil => simp at hany
    | cons c0 rest ih =>
      by_cases h0 : c0.connectionTopicId = c.connectionTopicId
      · simp [getConnectionByTopicId, List.find?_cons, h0]
      · have hrest : rest.any (fun x => x.connectionTopicId = c.connectionTopicId) = true := by
          simpa [List.any_cons, h0] using hany
        simpa [getConnectionByTopicId, List.find?_cons, h0] using ih hrest
  · rename_i hany
    induction conns with
    | nil => simp [getConnectionByTopicId, List.find?_cons]
    | cons c0 rest ih =>
      have h0 : ¬ (c0.connectionTopicId = c.connectionTopicId) := by
        intro h
        exact hany (by simp [List.any_cons, h])
      have hrest : ¬ rest.any (fun x => x.connectionTopicId = c.connectionTopicId) = true := by
        intro h
        exact hany (by simp [List.any_cons, h])
      simpa [getConnectionByTopicId, List.find?_cons, h0] using ih hrest

/-! Characterisation of the new-message filter. -/

theorem newMessageKeep_iff (a : List Char) (lt : Int) (ps ips : Finset Nat)
    (m : HCSMessage) :
    newMessageKeep a lt ps ips m = true ↔
      (∃ t, m.created = some t ∧ lt < t) ∧
      (∀ o, m.operator_id = some o → ¬ (a <:+: o)) ∧
      m.sequence_number ∉ ps ∧ m.sequence_number ∉ ips := by
  unfold newMessageKeep jsIncludes
  cases hc : m.created <;> cases ho : m.operator_id <;>
    simp [hc, ho, Bool.and_eq_true, decide_eq_true_eq, Bool.not_eq_true',
      decide_eq_false_iff_not, and_assoc]

theorem mem_filterNew (a : List Char) (lt : Int) (ps ips : Finset Nat)
    (msgs : List HCSMessage) (m : HCSMessage)
    (h : m ∈ filterNew a lt ps ips msgs) :
    m ∈ msgs ∧ newMessageKeep a lt ps ips m = true := by
  unfold filterNew at h
  exact ⟨List.mem_of_mem_filter h, List.of_mem_filter h⟩

/-! Lemmas about operator-id parsing. -/

theorem splitOnce_eq (c : Char) (l : List Char) :
    ∀ a b, splitOnce c l = some (a, b) → l = a ++ c :: b := by
  induction l with
  | nil => intro a b h; simp [splitOnce] at h
  | cons x xs ih =>
    intro a b h
    by_cases hx : x = c
    · simp only [splitOnce, if_pos hx, Option.some.injEq, Prod.mk.injEq] at h
      obtain ⟨rfl, rfl⟩ := h
      simp [hx]
    · simp only [splitOnce, if_neg hx, Option.map_eq_some'] at h
      obtain ⟨⟨a', b'⟩, hp, heq⟩ := h
      cases heq
      rw [ih a' b' hp]
      rfl

theorem extractAccountId_suffix (o acc : List Char)
    (h : extractAccountId o = some acc) : acc <:+ o := by
  unfold extractAccountId at h
  by_cases he : o.isEmpty = true
  · rw [if_pos he] at h; cases h
  · rw [if_neg he] at h
    cases hsp : splitOnce '@' o with
    | none => rw [hsp] at h; cases h
    | some p =>
      obtain ⟨pre, rest⟩ := p
      rw [hsp] at h
      dsimp only at h
      by_cases hc : rest.contains '@' = true
      · rw [if_pos hc] at h; cases h
      · rw [if_neg hc] at h
        obtain rfl : rest = acc := Option.some.inj h
        exact ⟨pre ++ ['@'], by rw [splitOnce_eq '@' o pre rest hsp]; simp⟩

/-- A message whose operator id names the local account (the protocol
self-authorship shape `anything@account`) is rejected by the filter
predicate: the account id is an infix of the operator id. -/
theorem newMessageKeep_not_self (a : List Char) (lt : Int) (ps ips : Finset Nat)
    (m : HCSMessage) (o : List Char) (ho : m.operator_id = some o)
    (hself : extractAccountId o = some a) :
    newMessageKeep a lt ps ips m = false := by
  have hsuf : a <:+ o := extractAccountId_suffix o a hself
  have hinf : a <:+: o := hsuf.isInfix
  cases hk : newMessageKeep a lt ps ips m with
  | false => rfl
  | true =>
    obtain ⟨-, hop, -, -⟩ := (newMessageKeep_iff a lt ps ips m).mp hk
    exact absurd hinf (hop o ho)

/-! Lemmas about the dispatch fold of the connection-topic scan. -/

theorem foldl_dispatch_dispatched (h : Handler) (t : TopicId)
    (msgs : List HCSMessage) (acc : TopicScanResult) :
    (msgs.foldl (dispatchMessage h t) acc).dispatched =
      acc.dispatched ++
        (msgs.filter (fun m => m.sequence_number ≠ 0)).map (fun m => (t, m)) := by
  induction msgs generalizing acc with
  | nil => simp
  | cons m rest ih =>
    by_cases hm : m.sequence_number = 0
    · simp [List.foldl_cons, dispatchMessage, hm, ih]
    · simp only [List.foldl_cons, ih, List.filter_cons]
      simp [dispatchMessage, hm]

theorem dispatchMessage_inProcess (h : Handler)
    (hpres : ∀ s m t, (h s m t).state.messagesInProcess = s.messagesInProcess)
    (t : TopicId) (acc : TopicScanResult) (m : HCSMessage) (X : Finset Nat)
    (hacc : acc.state.messagesInProcess t = some X)
    (hmem : m.sequence_number ∉ X) :
    (dispatchMessage h t acc m).state.messagesInProcess t = some X := by
  by_cases hm : m.sequence_number = 0
  · simpa [dispatchMessage, hm] using hacc
  · have h1 : (addInProcess acc.state t m.sequence_number).messagesInProcess t =
        some (insert m.sequence_number X) := by
      simp [addInProcess, hacc]
    have h2 : ∀ s2 : ClientState,
        s2.messagesInProcess t = some (insert m.sequence_number X) →
        (delInProcess s2 t m.sequence_number).messagesInProcess t = some X := by
      intro s2 hs2
      simp [delInProcess, hs2, Finset.erase_insert hmem]
    simp only [dispatchMessage, if_neg hm]
    apply h2
    split
    · cases hcr : m.created with
      | none =>
        simp only [hcr]
        rw [addProcessed_messagesInProcess, hpres]
        exact h1
      | some ts =>
        simp only [hcr]
        rw [advanceWatermark_messagesInProcess, addProcessed_messagesInProcess, hpres]
        exact h1
    · rw [hpres]
      exact h1

theorem foldl_dispatch_inProcess (h : Handler)
    (hpres : ∀ s m t, (h s m t).state.messagesInProcess = s.messagesInProcess)
    (t : TopicId) (msgs : List HCSMessage) (acc : TopicScanResult) (X : Finset Nat)
    (hacc : acc.state.messagesInProcess t = some X)
    (hnot : ∀ m ∈ msgs, m.sequence_number ∉ X) :
    (msgs.foldl (dispatchMessage h t) acc).state.messagesInProcess t = some X := by
  induction msgs generalizing acc with
  | nil => simpa using hacc
  | cons m rest ih =>
    rw [List.foldl_cons]
    exact ih _
      (dispatchMessage_inProcess h hpres t acc m X hacc (hnot m (by simp)))
      (fun x hx => hnot x (by simp [hx]))

/-! Claim theorems. -/

/-- C2 counterexample: the watermark update of the code is a plain
overwrite, not a `max`; on a topic whose stored watermark is 100, advancing
with the earlier timestamp 50 stores 50, strictly decreasing the stored
value, so the stored watermark is not monotonically non-decreasing under
updates with earlier timestamps. -/
theorem watermark_overwrite_decreases :
    wmStateT.lastProcessedTimestamps "0.0.888" = some 100 ∧
    (advanceWatermark wmStateT "0.0.888" 50).lastProcessedTimestamps "0.0.888" =
      some 50 ∧
    ¬ ((100 : Int) ≤ 50) := by
  refine ⟨by decide, by decide, by decide⟩

/-- C2 (amended): every watermark update site stores exactly the timestamp
it is called with (unconditional overwrite, `Map.set`); in particular an
update with an earlier timestamp lowers the stored value, and the
watermark is monotone only across updates whose timestamps are themselves
non-decreasing. -/
theorem advanceWatermark_stores_exactly (s : ClientState) (t : TopicId) (ts : Int) :
    (advanceWatermark s t ts).lastProcessedTimestamps t = some ts := by
  simp [advanceWatermark]

/-- C5 counterexample: with the stop flag never set and a first tick lasting
7000 ms, the first tick is still in progress when the second period elapses
at 10000 ms, yet the second tick is started anyway — the interval callback
checks only the stop flag, so an overrunning tick does not cause the next
scheduled tick to be skipped. -/
theorem overrunning_tick_not_skipped :
    tickRunningAt stoppingNeverT durOverT 0 (tickStartTime 1) ∧
    tickStarted stoppingNeverT 1 = true := by
  refine ⟨⟨rfl, by decide, by decide⟩, rfl⟩

/-- C5 (amended): the interval callback guards only on the stop flag, never
on a tick being in progress; whenever the stop flag is unset, a tick whose
duration exceeds the 5000 ms period overlaps the next scheduled tick — the
loop is not single-flight and overlapping ticks occur instead of the next
tick being skipped. -/
theorem interval_ticks_overlap_when_overrunning
    (stopping : Nat → Bool) (dur : Nat → Nat) (k : Nat)
    (hk : stopping k = false) (hk1 : stopping (k + 1) = false)
    (hdur : MONITORING_INTERVAL_MS < dur k) (hpos : 0 < dur (k + 1)) :
    ticksOverlap stopping dur k (k + 1) := by
  refine ⟨by omega, tickStartTime (k + 1), ⟨?_, ?_, ?_⟩, ⟨?_, ?_, ?_⟩⟩
  · simp [tickStarted, intervalCallbackRunsTick, hk]
  · unfold tickStartTime MONITORING_INTERVAL_MS
    omega
  · unfold MONITORING_INTERVAL_MS at hdur
    unfold tickStartTime MONITORING_INTERVAL_MS
    omega
  · simp [tickStarted, intervalCallbackRunsTick, hk1]
  · omega
  · unfold tickStartTime MONITORING_INTERVAL_MS
    omega

/-- C5 witness: the overlap theorem applied to the never-stopping flag and
the 7000 ms duration profile at k = 0. -/
theorem interval_ticks_overlap_when_overrunning_witness :
    stoppingNeverT 0 = false ∧ stoppingNeverT 1 = false ∧
    MONITORING_INTERVAL_MS < durOverT 0 ∧ 0 < durOverT 1 ∧
    ticksOverlap stoppingNeverT durOverT 0 1 :=
  ⟨rfl, rfl, by decide, by decide,
    interval_ticks_overlap_when_overrunning stoppingNeverT durOverT 0 rfl rfl
      (by decide) (by decide)⟩

/-- C3: a message is in the new-message filter output only if its ledger
creation time is strictly after the stored watermark, its sequence number
is in neither the processed nor the in-flight set, and its operator id
does not contain the local account id — in particular a message authored
by the local account (operator id parsing to the local account) is never in
the output. -/
theorem filterNew_only_new_foreign_unseen (a : List Char) (lt : Int)
    (ps ips : Finset Nat) (msgs : List HCSMessage) (m : HCSMessage)
    (hm : m ∈ filterNew a lt ps ips msgs) :
    (∃ t, m.created = some t ∧ lt < t) ∧
    m.sequence_number ∉ ps ∧ m.sequence_number ∉ ips ∧
    (∀ o, m.operator_id = some o → ¬ (a <:+: o)) ∧
    (∀ o, m.operator_id = some o → extractAccountId o ≠ some a) := by
  obtain ⟨-, hk⟩ := mem_filterNew a lt ps ips msgs m hm
  obtain ⟨h1, h2, h3, h4⟩ := (newMessageKeep_iff a lt ps ips m).mp hk
  refine ⟨h1, h3, h4, h2, ?_⟩
  intro o ho hex
  exact h2 o ho ((extractAccountId_suffix o a hex).isInfix)

/-- C3 witness: the filter theorem applied to a concrete batch containing
one foreign message that survives the filter. -/
theorem filterNew_only_new_foreign_unseen_witness :
    peerMsgT ∈ filterNew "0.0.999".toList 0 {2} ∅ [peerMsgT] ∧
    ((∃ t, peerMsgT.created = some t ∧ (0 : Int) < t) ∧
      peerMsgT.sequence_number ∉ ({2} : Finset Nat) ∧
      peerMsgT.sequence_number ∉ (∅ : Finset Nat) ∧
      (∀ o, peerMsgT.operator_id = some o → ¬ ("0.0.999".toList <:+: o)) ∧
      (∀ o, peerMsgT.operator_id = some o →
        extractAccountId o ≠ some "0.0.999".toList)) :=
  ⟨by decide,
    filterNew_only_new_foreign_unseen "0.0.999".toList 0 {2} ∅ [peerMsgT] peerMsgT
      (by decide)⟩

/-- C6 counterexample: a topic-gone error raised while SENDING closes the
connection with closedReason "Topic invalid during send", not "Topic no
longer exists", so the claimed reason does not hold for send failures. -/
theorem send_error_close_reason_differs :
    (getConnectionByTopicId
        (sendResponse gwSendGoneT connStateT "0.0.888" "hi".toList).1.connections
        "0.0.888").map Connection.closedReason =
      some (some "Topic invalid during send") ∧
    (some "Topic invalid during send" : Option String) ≠
      some "Topic no longer exists" := by
  refine ⟨by decide, by decide⟩

/-- C6 (amended): a fetch error matching INVALID_TOPIC_ID / TopicId Does
Not Exist removes all three tracking entries of the topic and closes a
not-already-closed registry connection with closedReason "Topic no longer
exists" (closeMethod admin_key), an already-closed connection staying put;
a matching error during a send does the same cleanup but closes with
closedReason "Topic invalid during send"; errors not matching the patterns
leave the state unchanged (the send path only rethrows). -/
theorem topic_gone_error_handling (gw : Gateway) (s : ClientState) (e : JsError)
    (t : TopicId) (x : List Char) :
    (topicGoneError e = true →
      (handleTopicFetchError s e t).processedMessages t = none ∧
      (handleTopicFetchError s e t).messagesInProcess t = none ∧
      (handleTopicFetchError s e t).lastProcessedTimestamps t = none ∧
      (∀ c, getConnectionByTopicId s.connections t = some c →
        c.status ≠ ConnStatus.closed →
        getConnectionByTopicId (handleTopicFetchError s e t).connections t =
          some { c with status := ConnStatus.closed,
                        closedReason := some "Topic no longer exists",
                        closeMethod := some "admin_key" }) ∧
      (∀ c, getConnectionByTopicId s.connections t = some c →
        c.status = ConnStatus.closed →
        (handleTopicFetchError s e t).connections = s.connections)) ∧
    (topicGoneError e = false → handleTopicFetchError s e t = s) ∧
    (gw.sendMessage t x = .error e → topicGoneError e = true →
      (sendResponse gw s t x).1.processedMessages t = none ∧
      (sendResponse gw s t x).1.messagesInProcess t = none ∧
      (sendResponse gw s t x).1.lastProcessedTimestamps t = none ∧
      (∀ c, getConnectionByTopicId s.connections t = some c →
        c.status ≠ ConnStatus.closed →
        getConnectionByTopicId (sendResponse gw s t x).1.connections t =
          some { c with status := ConnStatus.closed,
                        closedReason := some "Topic invalid during send",
                        closeMethod := some "admin_key" })) ∧
    (gw.sendMessage t x = .error e → topicGoneError e = false →
      (sendResponse gw s t x).1 = s) := by
  refine ⟨?_, ?_, ?_, ?_⟩
  · intro hg
    unfold handleTopicFetchError
    simp only [hg, if_true]
    simp only [cleanupTopicTracking_connections]
    cases hcc : getConnectionByTopicId s.connections t with
    | none =>
      refine ⟨by simp [cleanupTopicTracking], by simp [cleanupTopicTracking],
        by simp [cleanupTopicTracking], ?_, ?_⟩ <;>
        · intro c hc
          cases hc
    | some conn =>
      by_cases hst : conn.status = ConnStatus.closed
      · simp only [hst, ne_eq, not_true_eq_false, if_false]
        refine ⟨by simp [cleanupTopicTracking], by simp [cleanupTopicTracking],
          by simp [cleanupTopicTracking], ?_, ?_⟩
        · intro c hc hne
          obtain rfl : conn = c := Option.some.inj hc
          exact absurd hst hne
        · intro c hc heq
          rfl
      · simp only [ne_eq, hst, not_false_eq_true, if_true]
        have htid : conn.connectionTopicId = t :=
          getConnectionByTopicId_topic s.connections t conn hcc
        refine ⟨by simp [cleanupTopicTracking], by simp [cleanupTopicTracking],
          by simp [cleanupTopicTracking], ?_, ?_⟩
        · intro c hc hne
          obtain rfl : conn = c := Option.some.inj hc
          have hupd := getConnectionByTopicId_upsert s.connections
            { conn with status := ConnStatus.closed,
                        closedReason := some "Topic no longer exists",
                        closeMethod := some "admin_key" }
          simpa [htid] using hupd
        · intro c hc heq
          obtain rfl : conn = c := Option.some.inj hc
          exact absurd heq hst
  · intro hg
    unfold handleTopicFetchError
    simp [hg]
  · intro hsend hg
    unfold sendResponse
    rw [hsend]
    simp only [hg, if_true]
    simp only [cleanupTopicTracking_connections]
    cases hcc : getConnectionByTopicId s.connections t with
    | none =>
      refine ⟨by simp [cleanupTopicTracking], by simp [cleanupTopicTracking],
        by simp [cleanupTopicTracking], ?_⟩
      intro c hc
      cases hc
    | some conn =>
      by_cases hst : conn.status = ConnStatus.closed
      · simp only [hst, ne_eq, not_true_eq_false, if_false]
        refine ⟨by simp [cleanupTopicTracking], by simp [cleanupTopicTracking],
          by simp [cleanupTopicTracking], ?_⟩
        intro c hc hne
        obtain rfl : conn = c := Option.some.inj hc
        exact absurd hst hne
      · simp only [ne_eq, hst, not_false_eq_true, if_true]
        have htid : conn.connectionTopicId = t :=
          getConnectionByTopicId_topic s.connections t conn hcc
        refine ⟨by simp [cleanupTopicTracking], by simp [cleanupTopicTracking],
          by simp [cleanupTopicTracking], ?_⟩
        intro c hc hne
        obtain rfl : conn = c := Option.some.inj hc
        have hupd := getConnectionByTopicId_upsert s.connections
          { conn with status := ConnStatus.closed,
                      closedReason := some "Topic invalid during send",
                      closeMethod := some "admin_key" }
        simpa [htid] using hupd
  · intro hsend hg
    unfold sendResponse
    rw [hsend]
    simp [hg]

/-- C6 witness: the handling theorem applied to the concrete topic-gone
error on the tracked open connection, both on the fetch path and on the
send path. -/
theorem topic_gone_error_handling_witness :
    topicGoneError goneErrT = true ∧
    gwSendGoneT.sendMessage "0.0.888" "hi".toList = .error goneErrT ∧
    getConnectionByTopicId connStateT.connections "0.0.888" = some connT ∧
    connT.status ≠ ConnStatus.closed ∧
    ((handleTopicFetchError connStateT goneErrT "0.0.888").processedMessages
        "0.0.888" = none) ∧
    getConnectionByTopicId
        (handleTopicFetchError connStateT goneErrT "0.0.888").connections
        "0.0.888" =
      some { connT with status := ConnStatus.closed,
                        closedReason := some "Topic no longer exists",
                        closeMethod := some "admin_key" } ∧
    getConnectionByTopicId
        (sendResponse gwSendGoneT connStateT "0.0.888" "hi".toList).1.connections
        "0.0.888" =
      some { connT with status := ConnStatus.closed,
                        closedReason := some "Topic invalid during send",
                        closeMethod := some "admin_key" } := by
  have h := topic_gone_error_handling gwSendGoneT connStateT goneErrT "0.0.888"
    "hi".toList
  refine ⟨by decide, rfl, by decide, by decide, ?_, ?_, ?_⟩
  · exact (h.1 (by decide)).1
  · exact (h.1 (by decide)).2.2.2.1 connT (by decide) (by decide)
  · exact (h.2.2.1 rfl (by decide)).2.2.2 connT (by decide) (by decide)

/-- C7 counterexample: on a concrete scan, a surviving message whose op is
`connection_created` — not `message` — is dispatched to the
message-handling pipeline, so the dispatch is not restricted to
`op == message`. -/
theorem non_message_op_dispatched :
    (scanConnectionTopic cfgT gwScanT pcmIdT scanHandlerT ONE_DAY_MS
        ⟨connStateT, [], []⟩ connT).dispatched = [("0.0.888", peerMsgT)] ∧
    peerMsgT.op = some "connection_created" ∧
    (some "connection_created" : Option String) ≠ some "message" := by
  refine ⟨by decide, rfl, by decide⟩

/-- C7 (amended): `watchConnectionTopics` applies no op-discriminator
filter of its own — op handling is delegated to the external connections
manager pass over the raw batch.  When the connection is closed or gone
after that pass, the topic's tracking is disposed and nothing at all is
dispatched; otherwise every message surviving the new-message filter (with
a non-zero sequence number) is dispatched to the message handler,
whatever its op. -/
theorem scan_dispatches_all_surviving (cfg : ClientConfig) (gw : Gateway)
    (pcm : TopicId → List HCSMessage → List Connection → List Connection)
    (handler : Handler) (now : Int) (s : ClientState) (conn : Connection)
    (msgs : List HCSMessage)
    (hvalid : isValidTopicId conn.connectionTopicId = true)
    (hfetch : gw.getMessageStream conn.connectionTopicId = .ok msgs) :
    (∀ cur,
      getConnectionByTopicId (pcm conn.connectionTopicId msgs s.connections)
        conn.connectionTopicId = some cur →
      cur.status ≠ ConnStatus.closed →
      (scanConnectionTopic cfg gw pcm handler now ⟨s, [], []⟩ conn).dispatched =
        ((scanSurvivors cfg s conn.connectionTopicId msgs now).filter
            (fun m => m.sequence_number ≠ 0)).map
          (fun m => (conn.connectionTopicId, m))) ∧
    (∀ cur,
      getConnectionByTopicId (pcm conn.connectionTopicId msgs s.connections)
        conn.connectionTopicId = some cur →
      cur.status = ConnStatus.closed →
      (scanConnectionTopic cfg gw pcm handler now ⟨s, [], []⟩ conn).dispatched = [] ∧
      (scanConnectionTopic cfg gw pcm handler now ⟨s, [], []⟩ conn).state.processedMessages
        conn.connectionTopicId = none ∧
      (scanConnectionTopic cfg gw pcm handler now ⟨s, [], []⟩ conn).state.messagesInProcess
        conn.connectionTopicId = none ∧
      (scanConnectionTopic cfg gw pcm handler now ⟨s, [], []⟩ conn).state.lastProcessedTimestamps
        conn.connectionTopicId = none) ∧
    (getConnectionByTopicId (pcm conn.connectionTopicId msgs s.connections)
        conn.connectionTopicId = none →
      (scanConnectionTopic cfg gw pcm handler now ⟨s, [], []⟩ conn).dispatched = [] ∧
      (scanConnectionTopic cfg gw pcm handler now ⟨s, [], []⟩ conn).state.messagesInProcess
        conn.connectionTopicId = none) := by
  unfold scanConnectionTopic
  simp only [hvalid, Bool.not_true, Bool.false_eq_true, if_false, hfetch,
    initializeTopicTracking_connections]
  refine ⟨?_, ?_, ?_⟩
  · intro cur hcur hne
    simp only [hcur, ne_eq, hne, not_false_eq_true, if_false, if_neg hne]
    rw [foldl_dispatch_dispatched]
    simp [scanSurvivors, filterNew]
  · intro cur hcur heq
    simp only [hcur, heq, if_true, if_pos heq]
    refine ⟨by trivial, by simp [cleanupTopicTracking], by simp [cleanupTopicTracking],
      by simp [cleanupTopicTracking]⟩
  · intro hnone
    simp only [hnone]
    exact ⟨by trivial, by simp [cleanupTopicTracking]⟩

/-- C7 witness: the dispatch-shape theorem applied to the concrete scan of
topic `0.0.888` with an open connection. -/
theorem scan_dispatches_all_surviving_witness :
    isValidTopicId connT.connectionTopicId = true ∧
    gwScanT.getMessageStream connT.connectionTopicId = .ok [peerMsgT] ∧
    getConnectionByTopicId
        (pcmIdT connT.connectionTopicId [peerMsgT] connStateT.connections)
        connT.connectionTopicId = some connT ∧
    connT.status ≠ ConnStatus.closed ∧
    (scanConnectionTopic cfgT gwScanT pcmIdT handlerNoopT 0
        ⟨connStateT, [], []⟩ connT).dispatched =
      ((scanSurvivors cfgT connStateT connT.connectionTopicId [peerMsgT] 0).filter
          (fun m => m.sequence_number ≠ 0)).map
        (fun m => (connT.connectionTopicId, m)) := by
  refine ⟨by decide, rfl, by decide, by decide, ?_⟩
  exact (scan_dispatches_all_surviving cfgT gwScanT pcmIdT handlerNoopT 0
    connStateT connT [peerMsgT] (by decide) rfl).1 connT (by decide) (by decide)

/-- C8: the dispatch loop brackets every handler invocation between an
in-flight insert and a guaranteed in-flight removal (success or failure of
the handler alike): for a handler that does not itself touch the in-flight
maps, a scan that starts with the topic's in-flight set empty (or not yet
tracked) ends with it empty, and — since ledger sequence numbers in a
fetched batch are distinct — no sequence number is dispatched twice within
the tick. -/
theorem inflight_bracket_scan (cfg : ClientConfig) (gw : Gateway)
    (pcm : TopicId → List HCSMessage → List Connection → List Connection)
    (handler : Handler) (now : Int) (s : ClientState) (conn : Connection)
    (msgs : List HCSMessage) (cur : Connection)
    (hvalid : isValidTopicId conn.connectionTopicId = true)
    (hfetch : gw.getMessageStream conn.connectionTopicId = .ok msgs)
    (hcur : getConnectionByTopicId (pcm conn.connectionTopicId msgs s.connections)
      conn.connectionTopicId = some cur)
    (hne : cur.status ≠ ConnStatus.closed)
    (hpres : ∀ s0 m0 t0, (handler s0 m0 t0).state.messagesInProcess =
      s0.messagesInProcess)
    (hstart : (s.messagesInProcess conn.connectionTopicId).getD ∅ = ∅)
    (hnodup : (msgs.map HCSMessage.sequence_number).Nodup) :
    (scanConnectionTopic cfg gw pcm handler now ⟨s, [], []⟩ conn).state.messagesInProcess
      conn.connectionTopicId = some ∅ ∧
    ((scanConnectionTopic cfg gw pcm handler now ⟨s, [], []⟩ conn).dispatched.map
      (fun p => p.2.sequence_number)).Nodup := by
  unfold scanConnectionTopic
  simp only [hvalid, Bool.not_true, Bool.false_eq_true, if_false, hfetch,
    initializeTopicTracking_connections, hcur, ne_eq, hne, not_false_eq_true,
    if_false, if_neg hne]
  constructor
  · apply foldl_dispatch_inProcess handler hpres conn.connectionTopicId _ _ ∅
    · show (initializeTopicTracking s conn.connectionTopicId true now).messagesInProcess
        conn.connectionTopicId = some ∅
      rw [initializeTopicTracking_inProcess_self, hstart]
    · intro m _
      exact Finset.not_mem_empty _
  · rw [foldl_dispatch_dispatched]
    simp only [List.nil_append, List.map_map]
    have hsub :
        ((filterNew cfg.accountId
            (((initializeTopicTracking s conn.connectionTopicId true now).lastProcessedTimestamps
              conn.connectionTopicId).getD 0)
            (((initializeTopicTracking s conn.connectionTopicId true now).processedMessages
              conn.connectionTopicId).getD ∅)
            (((initializeTopicTracking s conn.connectionTopicId true now).messagesInProcess
              conn.connectionTopicId).getD ∅) msgs).filter
          (fun m => m.sequence_number ≠ 0)).Sublist msgs := by
      exact (List.filter_sublist _).trans (List.filter_sublist _)
    have := (hsub.map HCSMessage.sequence_number).nodup hnodup
    simpa [Function.comp] using this

/-- C8 witness: the bracket theorem applied to the concrete scan of topic
`0.0.888` with the no-op handler. -/
theorem inflight_bracket_scan_witness :
    isValidTopicId connT.connectionTopicId = true ∧
    gwScanT.getMessageStream connT.connectionTopicId = .ok [peerMsgT] ∧
    getConnectionByTopicId
        (pcmIdT connT.connectionTopicId [peerMsgT] connStateT.connections)
        connT.connectionTopicId = some connT ∧
    connT.status ≠ ConnStatus.closed ∧
    (∀ s0 m0 t0, (handlerNoopT s0 m0 t0).state.messagesInProcess =
      s0.messagesInProcess) ∧
    (connStateT.messagesInProcess connT.connectionTopicId).getD ∅ = ∅ ∧
    (([peerMsgT].map HCSMessage.sequence_number).Nodup) ∧
    (scanConnectionTopic cfgT gwScanT pcmIdT handlerNoopT 0
        ⟨connStateT, [], []⟩ connT).state.messagesInProcess
      connT.connectionTopicId = some ∅ ∧
    ((scanConnectionTopic cfgT gwScanT pcmIdT handlerNoopT 0
        ⟨connStateT, [], []⟩ connT).dispatched.map
      (fun p => p.2.sequence_number)).Nodup := by
  have h := inflight_bracket_scan cfgT gwScanT pcmIdT handlerNoopT 0 connStateT
    connT [peerMsgT] connT (by decide) rfl (by decide) (by decide)
    (fun _ _ _ => rfl) (by decide) (by decide)
  exact ⟨by decide, rfl, by decide, by decide, fun _ _ _ => rfl, by decide,
    by decide, h.1, h.2⟩

/-- C9: when a dispatched message carries an `hcs://` content reference
whose resolution throws, the handler returns normally without sending
anything, and the dispatch loop still adds the sequence number to the
topic's processed set — the message is not retried and no reply is ever
produced for it. -/
theorem unresolved_content_processed_no_reply (gw : Gateway) (ro : RuntimeOracle)
    (s : ClientState) (m : HCSMessage) (t : TopicId) (now : Int) (d : List Char)
    (e : JsError) (ci : Connection) (P : Finset Nat)
    (hseq : m.sequence_number ≠ 0)
    (hdata : m.data = some d)
    (hpre : jsStartsWith d "hcs://".toList = true)
    (hconn : getConnectionByTopicId s.connections t = some ci)
    (hst : ci.status = ConnStatus.established)
    (hres : gw.getMessageContent d = .error e)
    (htrack : s.processedMessages t = some P) :
    (dispatchMessage (fun s0 m0 t0 => handleMessage gw ro s0 m0 t0 now) t
        ⟨s, [], []⟩ m).sent = [] ∧
    (dispatchMessage (fun s0 m0 t0 => handleMessage gw ro s0 m0 t0 now) t
        ⟨s, [], []⟩ m).state.processedMessages t =
      some (insert m.sequence_number P) := by
  have hd : d.isEmpty = false := by
    have hp : "hcs://".toList <+: d := of_decide_eq_true hpre
    obtain ⟨tail, htl⟩ := hp
    cases d with
    | nil => simp at htl
    | cons c cs => rfl
  have hh : handleMessage gw ro (addInProcess s t m.sequence_number) m t now =
      ⟨addInProcess s t m.sequence_number, [], true⟩ := by
    unfold handleMessage
    rw [hdata]
    simp only [truthyS_some, hd, Bool.not_false, Bool.not_true, Bool.false_eq_true,
      if_false, if_true]
    rw [addInProcess_connections, hconn]
    simp only [hst, ne_eq, not_true_eq_false, Bool.false_eq_true, if_false]
    simp only [Option.getD_some, hpre, if_true, hres]
  constructor
  · simp only [dispatchMessage, if_neg hseq, hh]
    simp
  · simp only [dispatchMessage, if_neg hseq, hh]
    have hP1 : (addInProcess s t m.sequence_number).processedMessages t = some P := by
      rw [addInProcess_processedMessages]; exact htrack
    cases hcr : m.created with
    | none =>
      simp only [hcr, if_true]
      rw [delInProcess_processedMessages]
      exact addProcessed_lookup _ _ _ _ hP1
    | some ts =>
      simp only [hcr, if_true]
      rw [delInProcess_processedMessages, advanceWatermark_processedMessages]
      exact addProcessed_lookup _ _ _ _ hP1

/-- C9 witness: the theorem applied to the concrete unresolvable message
on the tracked topic `0.0.888`. -/
theorem unresolved_content_processed_no_reply_witness :
    hrlMsgT.sequence_number ≠ 0 ∧
    hrlMsgT.data = some "hcs://1/0.0.123".toList ∧
    jsStartsWith "hcs://1/0.0.123".toList "hcs://".toList = true ∧
    getConnectionByTopicId connStateT.connections "0.0.888" = some connT ∧
    connT.status = ConnStatus.established ∧
    gwScanT.getMessageContent "hcs://1/0.0.123".toList = .error netErrT ∧
    connStateT.processedMessages "0.0.888" = some {2} ∧
    (dispatchMessage (fun s0 m0 t0 => handleMessage gwScanT roT s0 m0 t0 0)
        "0.0.888" ⟨connStateT, [], []⟩ hrlMsgT).sent = [] ∧
    (dispatchMessage (fun s0 m0 t0 => handleMessage gwScanT roT s0 m0 t0 0)
        "0.0.888" ⟨connStateT, [], []⟩ hrlMsgT).state.processedMessages "0.0.888" =
      some (insert hrlMsgT.sequence_number {2}) := by
  have h := unresolved_content_processed_no_reply gwScanT roT connStateT hrlMsgT
    "0.0.888" 0 "hcs://1/0.0.123".toList netErrT connT {2}
    (by decide) (by decide) (by decide) (by decide) (by decide) rfl (by decide)
  exact ⟨by decide, by decide, by decide, by decide, by decide, rfl, by decide,
    h.1, h.2⟩

/-- C10: in the response callback, a response with no transaction bytes but
a non-empty structured output AND a non-empty top-level text sends two
separate reply messages for the one inbound message — one from the output
branch and one from the text branch — both prefixed with the back-reference
tag; with no notes they are exactly the two messages sent. -/
theorem output_and_text_both_replied (gw : Gateway) (s : ClientState)
    (topicId : TopicId) (origSeq : Nat) (mop : Option (List Char)) (now : Int)
    (content : Content) (rc : AgentResponse) (o tx : List Char)
    (hrc : content.content = some rc)
    (htb : rc.transactionBytes = none)
    (hout : rc.output = some o) (ho : o ≠ [])
    (htext : content.text = some tx) (htx : tx ≠ [])
    (hsend : ∀ x, ∃ r, gw.sendMessage topicId x = .ok r) :
    (topicId, replyTag origSeq ++ ' ' :: o) ∈
      (responseCallback gw s topicId origSeq mop now content).2.1 ∧
    (topicId, replyTag origSeq ++ '\n' :: tx) ∈
      (responseCallback gw s topicId origSeq mop now content).2.1 ∧
    replyTag origSeq ++ ' ' :: o ≠ replyTag origSeq ++ '\n' :: tx ∧
    replyTag origSeq <+: replyTag origSeq ++ ' ' :: o ∧
    replyTag origSeq <+: replyTag origSeq ++ '\n' :: tx ∧
    (rc.notes = none →
      (responseCallback gw s topicId origSeq mop now content).2.1 =
        [(topicId, replyTag origSeq ++ ' ' :: o),
          (topicId, replyTag origSeq ++ '\n' :: tx)]) := by
  have ho' : o.isEmpty = false := by
    cases o with
    | nil => exact absurd rfl ho
    | cons c cs => rfl
  have htx' : tx.isEmpty = false := by
    cases tx with
    | nil => exact absurd rfl htx
    | cons c cs => rfl
  obtain ⟨r1, hr1⟩ := hsend (replyTag origSeq ++ ' ' :: o)
  obtain ⟨r4, hr4⟩ := hsend (replyTag origSeq ++ '\n' :: tx)
  have hneq : replyTag origSeq ++ ' ' :: o ≠ replyTag origSeq ++ '\n' :: tx := by
    intro heq
    have h2 := List.append_cancel_left heq
    injection h2 with hch _
    exact absurd hch (by decide)
  cases hn : rc.notes with
  | none =>
    have hsends : (responseCallback gw s topicId origSeq mop now content).2.1 =
        [(topicId, replyTag origSeq ++ ' ' :: o),
          (topicId, replyTag origSeq ++ '\n' :: tx)] := by
      unfold responseCallback
      simp only [hrc, Option.some_bind, hout, hn, htb, htext, truthyS_some,
        truthyS_none, ho', htx', Bool.not_false, Bool.and_true, Bool.true_and,
        Bool.and_false, Option.isSome_none, Bool.false_and, if_true, if_false,
        Bool.not_true, Bool.false_eq_true, Bool.true_eq_false, Option.getD_some]
      rw [hr1]
      dsimp only
      rw [hr4]
      dsimp only
      cases r4 with
      | none => rfl
      | some n => rfl
    rw [hsends]
    refine ⟨by simp, by simp, hneq, List.prefix_append _ _,
      List.prefix_append _ _, fun _ => rfl⟩
  | some l =>
    obtain ⟨r2, hr2⟩ := hsend (replyTag origSeq ++ '\n' ::
      (inferenceMessage ++ '\n' :: formatNotes l))
    have hsends : (responseCallback gw s topicId origSeq mop now content).2.1 =
        [(topicId, replyTag origSeq ++ ' ' :: o),
          (topicId, replyTag origSeq ++ '\n' ::
            (inferenceMessage ++ '\n' :: formatNotes l)),
          (topicId, replyTag origSeq ++ '\n' :: tx)] := by
      unfold responseCallback
      simp only [hrc, Option.some_bind, hout, hn, htb, htext, truthyS_some,
        truthyS_none, ho', htx', Bool.not_false, Bool.and_true, Bool.true_and,
        Bool.and_false, Option.isSome_some, Bool.false_and, if_true, if_false,
        Bool.not_true, Bool.false_eq_true, Bool.true_eq_false, Option.getD_some]
      rw [hr1]
      dsimp only
      rw [hr2]
      dsimp only
      rw [hr4]
      dsimp only
      cases r4 with
      | none => rfl
      | some n => rfl
    rw [hsends]
    refine ⟨by simp, by simp, hneq, List.prefix_append _ _,
      List.prefix_append _ _, ?_⟩
    intro h
    cases h

/-- C10 witness: the double-reply theorem applied to a concrete content
with output `the output` and text `the text` over the all-ok gateway. -/
theorem output_and_text_both_replied_witness :
    contentT.content = some { output := some "the output".toList } ∧
    (∀ x, ∃ r, gwOkT.sendMessage "0.0.888" x = .ok r) ∧
    (responseCallback gwOkT emptyState "0.0.888" 7 none 0 contentT).2.1 =
      [("0.0.888", replyTag 7 ++ ' ' :: "the output".toList),
        ("0.0.888", replyTag 7 ++ '\n' :: "the text".toList)] := by
  have h := output_and_text_both_replied gwOkT emptyState "0.0.888" 7 none 0
    contentT { output := some "the output".toList } "the output".toList
    "the text".toList rfl rfl rfl (by decide) rfl (by decide)
    (fun x => ⟨some 1, rfl⟩)
  exact ⟨rfl, fun x => ⟨some 1, rfl⟩, h.2.2.2.2.2 rfl⟩

/-- C4: a tick whose inbound scan finds exactly one unprocessed
connection request from requester R, with the gateway returning connection
topic T: afterwards the registry holds an established connection for T with
target R whose inboundRequestId is the request's sequence number, exactly
one greeting was sent to T and its receipt sequence number is in T's
processed set, the request is flagged processed, and a second scan over the
same inbound list changes nothing — no further connection, no further
greeting. -/
theorem connection_request_tick_scenario
    (cfg : ClientConfig) (gw : Gateway) (msg : HCSMessage) (opid R : List Char)
    (T : TopicId) (g : Nat) (now : Int)
    (hvalid : isValidTopicId cfg.inboundTopicId = true)
    (hTneq : T ≠ cfg.inboundTopicId)
    (hseq : msg.sequence_number ≠ 0)
    (hop : msg.op = some "connection_request")
    (hopid : msg.operator_id = some opid)
    (hext : extractAccountFromOperatorId opid = some R)
    (hR : R ≠ [])
    (hnotself : jsEndsWith opid ('@' :: cfg.accountId) = false)
    (hfetch : gw.getMessages cfg.inboundTopicId = .ok [msg])
    (hgw : gw.handleConnectionRequest cfg.inboundTopicId R msg.sequence_number = .ok T)
    (hsend : gw.sendMessage T (welcomeMessage cfg) = .ok (some g)) :
    (watchConnectionRequests cfg gw emptyState now).sent =
      [(T, welcomeMessage cfg)] ∧
    (watchConnectionRequests cfg gw emptyState now).attempts =
      [msg.sequence_number] ∧
    getConnectionByTopicId
        (watchConnectionRequests cfg gw emptyState now).state.connections T =
      some { connectionTopicId := T, targetAccountId := R,
             status := ConnStatus.established,
             inboundRequestId := some msg.sequence_number,
             originTopicId := some cfg.inboundTopicId } ∧
    (watchConnectionRequests cfg gw emptyState now).state.processedMessages T =
      some {g} ∧
    (cfg.inboundTopicId, msg.sequence_number) ∈
      (watchConnectionRequests cfg gw emptyState now).state.requestProcessed ∧
    (watchConnectionRequests cfg gw emptyState now).state.processedMessages
      cfg.inboundTopicId = some {msg.sequence_number} ∧
    watchConnectionRequests cfg gw
        (watchConnectionRequests cfg gw emptyState now).state now =
      ⟨(watchConnectionRequests cfg gw emptyState now).state, [], []⟩ := by
  have hR' : R.isEmpty = false := by
    cases R with
    | nil => exact absurd rfl hR
    | cons a b => rfl
  have hTneq' : cfg.inboundTopicId ≠ T := fun hh => hTneq hh.symm
  simp [watchConnectionRequests, processInboundMessage, handleConnectionRequest,
    finalizeConnection, sendResponse, initializeTopicTracking, addProcessed,
    advanceWatermark, updateOrAddConnection, getConnectionByTopicId, emptyState,
    mapUpd, hvalid, hseq, hop, hopid, hext, hR', hnotself, hfetch, hgw, hsend,
    hTneq, hTneq']

/-- C4 witness: the scenario theorem applied to the concrete request #5
from `0.0.500` with the gateway returning topic `0.0.777` and greeting
receipt sequence number 1. -/
theorem connection_request_tick_scenario_witness :
    isValidTopicId cfgT.inboundTopicId = true ∧
    ("0.0.777" : TopicId) ≠ cfgT.inboundTopicId ∧
    reqMsgT.sequence_number ≠ 0 ∧
    reqMsgT.op = some "connection_request" ∧
    reqMsgT.operator_id = some "agent@0.0.500".toList ∧
    extractAccountFromOperatorId "agent@0.0.500".toList = some "0.0.500".toList ∧
    jsEndsWith "agent@0.0.500".toList ('@' :: cfgT.accountId) = false ∧
    (watchConnectionRequests cfgT gwOkT emptyState 0).sent =
      [("0.0.777", welcomeMessage cfgT)] ∧
    (watchConnectionRequests cfgT gwOkT emptyState 0).attempts = [5] ∧
    getConnectionByTopicId
        (watchConnectionRequests cfgT gwOkT emptyState 0).state.connections
        "0.0.777" =
      some { connectionTopicId := "0.0.777",
             targetAccountId := "0.0.500".toList,
             status := ConnStatus.established,
             inboundRequestId := some 5,
             originTopicId := some cfgT.inboundTopicId } ∧
    (watchConnectionRequests cfgT gwOkT emptyState 0).state.processedMessages
      "0.0.777" = some {1} ∧
    (cfgT.inboundTopicId, 5) ∈
      (watchConnectionRequests cfgT gwOkT emptyState 0).state.requestProcessed ∧
    (watchConnectionRequests cfgT gwOkT emptyState 0).state.processedMessages
      cfgT.inboundTopicId = some {5} ∧
    watchConnectionRequests cfgT gwOkT
        (watchConnectionRequests cfgT gwOkT emptyState 0).state 0 =
      ⟨(watchConnectionRequests cfgT gwOkT emptyState 0).state, [], []⟩ := by
  have h := connection_request_tick_scenario cfgT gwOkT reqMsgT
    "agent@0.0.500".toList "0.0.500".toList "0.0.777" 1 0
    (by decide) (by decide) (by decide) rfl rfl (by decide) (by decide)
    (by decide) rfl rfl rfl
  exact ⟨by decide, by decide, by decide, rfl, rfl, by decide, by decide,
    h.1, h.2.1, h.2.2.1, h.2.2.2.1, h.2.2.2.2.1, h.2.2.2.2.2.1, h.2.2.2.2.2.2⟩

/-- C1 counterexample: on a concrete tick where the gateway negotiation
call throws a transient network error for request #5, the sequence number 5
IS inside the inbound processed set at the end of the tick, and the next
tick over the same inbound list dispatches nothing to negotiation — the
request is not retried, contradicting the claim that it stays outside the
processed set and is dispatched again. -/
theorem failed_request_inside_processed_set :
    5 ∈ ((watchConnectionRequests cfgT gwFailT emptyState 0).state.processedMessages
        "0.0.100").getD ∅ ∧
    (watchConnectionRequests cfgT gwFailT
        (watchConnectionRequests cfgT gwFailT emptyState 0).state 0).attempts =
      [] := by
  refine ⟨by decide, by decide⟩

/-- C1 (amended): when the gateway negotiation call throws, the request's
sequence number has already been added to the inbound processed set on
first observation (and is added again by the error handler), so it does NOT
remain outside the processed set: the next tick skips it and never
re-dispatches it to negotiation.  Only the connections-manager
request-processed flag is left unset. -/
theorem failed_negotiation_drops_request
    (cfg : ClientConfig) (gw : Gateway) (msg : HCSMessage) (opid R : List Char)
    (e : JsError) (now : Int)
    (hvalid : isValidTopicId cfg.inboundTopicId = true)
    (hseq : msg.sequence_number ≠ 0)
    (hop : msg.op = some "connection_request")
    (hopid : msg.operator_id = some opid)
    (hext : extractAccountFromOperatorId opid = some R)
    (hR : R ≠ [])
    (hnotself : jsEndsWith opid ('@' :: cfg.accountId) = false)
    (hfetch : gw.getMessages cfg.inboundTopicId = .ok [msg])
    (hgw : gw.handleConnectionRequest cfg.inboundTopicId R msg.sequence_number =
      .error e) :
    (watchConnectionRequests cfg gw emptyState now).sent = [] ∧
    (watchConnectionRequests cfg gw emptyState now).attempts =
      [msg.sequence_number] ∧
    (watchConnectionRequests cfg gw emptyState now).state.processedMessages
      cfg.inboundTopicId = some {msg.sequence_number} ∧
    (cfg.inboundTopicId, msg.sequence_number) ∉
      (watchConnectionRequests cfg gw emptyState now).state.requestProcessed ∧
    watchConnectionRequests cfg gw
        (watchConnectionRequests cfg gw emptyState now).state now =
      ⟨(watchConnectionRequests cfg gw emptyState now).state, [], []⟩ := by
  have hR' : R.isEmpty = false := by
    cases R with
    | nil => exact absurd rfl hR
    | cons a b => rfl
  simp [watchConnectionRequests, processInboundMessage, handleConnectionRequest,
    initializeTopicTracking, addProcessed, emptyState, mapUpd, hvalid, hseq,
    hop, hopid, hext, hR', hnotself, hfetch, hgw]

/-- C1 witness: the amended theorem applied to the concrete failed request
#5 on the transiently failing gateway. -/
theorem failed_negotiation_drops_request_witness :
    isValidTopicId cfgT.inboundTopicId = true ∧
    reqMsgT.sequence_number ≠ 0 ∧
    reqMsgT.op = some "connection_request" ∧
    gwFailT.handleConnectionRequest cfgT.inboundTopicId "0.0.500".toList 5 =
      .error netErrT ∧
    (watchConnectionRequests cfgT gwFailT emptyState 0).sent = [] ∧
    (watchConnectionRequests cfgT gwFailT emptyState 0).attempts = [5] ∧
    (watchConnectionRequests cfgT gwFailT emptyState 0).state.processedMessages
      cfgT.inboundTopicId = some {5} ∧
    (cfgT.inboundTopicId, 5) ∉
      (watchConnectionRequests cfgT gwFailT emptyState 0).state.requestProcessed ∧
    watchConnectionRequests cfgT gwFailT
        (watchConnectionRequests cfgT gwFailT emptyState 0).state 0 =
      ⟨(watchConnectionRequests cfgT gwFailT emptyState 0).state, [], []⟩ := by
  have h := failed_negotiation_drops_request cfgT gwFailT reqMsgT
    "agent@0.0.500".toList "0.0.500".toList netErrT 0
    (by decide) (by decide) rfl rfl (by decide) (by decide) (by decide) rfl rfl
  exact ⟨by decide, by decide, rfl, rfl, h.1, h.2.1, h.2.2.1, h.2.2.2.1,
    h.2.2.2.2⟩

end OpenConvai
